import Mathlib

/-!
Verification development for the agroRoute route-optimization module
(`otimizador.py`).  The Python code is shallowly embedded: IEEE doubles are
idealized as real numbers extended with the three non-finite values
(`nan`, `+inf`, `-inf`), whose propagation through subtraction, `math.hypot`,
multiplication by the positive scale constant and `int()` conversion is
modelled exactly; rounding error of finite double arithmetic is ignored.
Fallible Python code (raised exceptions) is embedded as `Except PyErr`.
The third-party OR-Tools routing solver is not part of the repository; it is
modelled as an abstract `Backend` parameter, and the guarantees OR-Tools
gives for a feasible single-vehicle solution appear as explicit hypotheses
of the theorems that need them.
-/

/-- Python exceptions that the embedded code can raise, tagged with the
message text the interpreter or the source code produces. -/
inductive PyErr where
  | valueError (msg : String)
  | overflowError (msg : String)
  | runtimeError (msg : String)
  | indexError (msg : String)
  | keyError (msg : String)
  | typeError (msg : String)
  | attributeError (msg : String)
  deriving DecidableEq, Repr

/-- Idealized IEEE double: a real number or one of the non-finite values. -/
inductive PyFloat where
  | fin (x : ℝ)
  | pinf
  | ninf
  | nan

/-- Subtraction on idealized doubles (IEEE semantics for non-finite values). -/
noncomputable def fsub : PyFloat → PyFloat → PyFloat
  | .fin a, .fin b => .fin (a - b)
  | .fin _, .pinf => .ninf
  | .fin _, .ninf => .pinf
  | .pinf, .fin _ => .pinf
  | .ninf, .fin _ => .ninf
  | .pinf, .pinf => .nan
  | .pinf, .ninf => .pinf
  | .ninf, .pinf => .ninf
  | .ninf, .ninf => .nan
  | .nan, _ => .nan
  | _, .nan => .nan

/-- `math.hypot` on idealized doubles: an infinite argument dominates (IEEE
hypot returns +inf even when the other argument is NaN), otherwise NaN
propagates, otherwise `sqrt (a^2 + b^2)`. -/
noncomputable def fhypot : PyFloat → PyFloat → PyFloat
  | .pinf, _ => .pinf
  | .ninf, _ => .pinf
  | _, .pinf => .pinf
  | _, .ninf => .pinf
  | .nan, _ => .nan
  | _, .nan => .nan
  | .fin a, .fin b => .fin (Real.sqrt (a ^ 2 + b ^ 2))

/-- Multiplication by the positive scale constant 1000. -/
noncomputable def fmulScale : PyFloat → PyFloat
  | .fin a => .fin (a * 1000)
  | .pinf => .pinf
  | .ninf => .ninf
  | .nan => .nan

/-- Truncation toward zero, the semantics of Python `int(float)` on finite
values. -/
noncomputable def trunc (x : ℝ) : ℤ :=
  if 0 ≤ x then ⌊x⌋ else ⌈x⌉

/-- Python `int(float)`: truncates finite values, raises `ValueError` on NaN
and `OverflowError` on infinities (with CPython's message texts). -/
noncomputable def pyInt : PyFloat → Except PyErr ℤ
  | .fin x => .ok (trunc x)
  | .nan => .error (.valueError "cannot convert float NaN to integer")
  | .pinf => .error (.overflowError "cannot convert float infinity to integer")
  | .ninf => .error (.overflowError "cannot convert float infinity to integer")

/-- A coordinate pair `[lon, lat]` as the embedded point type. -/
def Point := PyFloat × PyFloat

/-- Embeds `distancia_euclidiana` (otimizador.py line 34):
`int(math.hypot(a[0] - b[0], a[1] - b[1]) * 1000)`. -/
noncomputable def distancia_euclidiana (a b : Point) : Except PyErr ℤ :=
  pyInt (fmulScale (fhypot (fsub a.1 b.1) (fsub a.2 b.2)))

/-- Semantics of a Python list comprehension over a fallible body: elements
are produced left to right and the first raised exception aborts the whole
comprehension. -/
noncomputable def mapE {α β : Type} (f : α → Except PyErr β) : List α → Except PyErr (List β)
  | [] => .ok []
  | a :: l =>
    match f a with
    | .error e => .error e
    | .ok b =>
      match mapE f l with
      | .error e => .error e
      | .ok bs => .ok (b :: bs)

/-- Embeds the nested comprehension building `dist_matrix`
(otimizador.py lines 69-73): outer index `i`, inner index `j`. -/
noncomputable def buildMatrix (pts : List Point) : Except PyErr (List (List ℤ)) :=
  mapE (fun pi => mapE (fun pj => distancia_euclidiana pi pj) pts) pts

/-- Specification-side cost function, written from the spec's words
("cost = round(sqrt((xi-xj)^2 + (yi-yj)^2) * SCALE)", SCALE = 1000):
the scaled Euclidean distance ROUNDED to the nearest integer.  Compared
against `distancia_euclidiana`, which the source defines with `int(...)`. -/
noncomputable def spec_round_cost (a b : ℝ × ℝ) : ℤ :=
  round (Real.sqrt ((a.1 - b.1) ^ 2 + (a.2 - b.2) ^ 2) * 1000)

lemma mapE_ok_of_forall {α β : Type} (f : α → Except PyErr β) (g : α → β) :
    ∀ l : List α, (∀ a ∈ l, f a = .ok (g a)) → mapE f l = .ok (l.map g) := by
  intro l
  induction l with
  | nil => intro _; simp [mapE]
  | cons a t ih =>
    intro h
    have ha : f a = .ok (g a) := h a (List.mem_cons_self a t)
    have ht : mapE f t = .ok (t.map g) := ih fun x hx => h x (List.mem_cons_of_mem a hx)
    simp [mapE, ha, ht]

lemma mapE_ok_length {α β : Type} (f : α → Except PyErr β) :
    ∀ (l : List α) (ys : List β), mapE f l = .ok ys → ys.length = l.length := by
  intro l
  induction l with
  | nil =>
    intro ys h
    simp [mapE] at h
    simp [← h]
  | cons a t ih =>
    intro ys h
    simp only [mapE] at h
    cases hfa : f a with
    | error e => rw [hfa] at h; simp at h
    | ok b =>
      rw [hfa] at h
      cases hft : mapE f t with
      | error e => rw [hft] at h; simp at h
      | ok bs =>
        rw [hft] at h
        simp at h
        subst h
        simp [ih bs hft]

lemma pyInt_fin_nonneg (x : ℝ) (h : 0 ≤ x) : pyInt (.fin x) = .ok ⌊x⌋ := by
  simp [pyInt, trunc, if_pos h]

/-- Evaluation of `distancia_euclidiana` on finite coordinates: the scaled
Euclidean distance truncated (equivalently floored, since nonnegative). -/
lemma dist_fin_eval (x₁ y₁ x₂ y₂ : ℝ) :
    distancia_euclidiana (.fin x₁, .fin y₁) (.fin x₂, .fin y₂) =
      .ok ⌊Real.sqrt ((x₁ - x₂) ^ 2 + (y₁ - y₂) ^ 2) * 1000⌋ := by
  have hnn : 0 ≤ Real.sqrt ((x₁ - x₂) ^ 2 + (y₁ - y₂) ^ 2) * 1000 :=
    mul_nonneg (Real.sqrt_nonneg _) (by norm_num)
  simp [distancia_euclidiana, fsub, fhypot, fmulScale, pyInt_fin_nonneg _ hnn]

/-- A point's distance to itself is 0 (finite coordinates). -/
lemma dist_self_eval (x y : ℝ) :
    distancia_euclidiana (.fin x, .fin y) (.fin x, .fin y) = .ok 0 := by
  rw [dist_fin_eval]
  norm_num

/-- Claim C2: the source computes `int(...)`, which truncates toward zero,
not `round(...)`.  At points (0, 0) and (0, 0.0017) the scaled distance is
1.7: the code produces 1 while the spec's rounded cost is 2. -/
theorem distancia_truncates_counterexample :
    distancia_euclidiana (.fin 0, .fin 0) (.fin 0, .fin (17 / 10000)) = .ok 1 ∧
    spec_round_cost (0, 0) (0, 17 / 10000) = 2 := by
  constructor
  · rw [dist_fin_eval]
    have h1 : ((0 : ℝ) - 0) ^ 2 + ((0 : ℝ) - 17 / 10000) ^ 2 = (17 / 10000 : ℝ) ^ 2 := by ring
    rw [h1, Real.sqrt_sq (by norm_num : (0 : ℝ) ≤ 17 / 10000)]
    have h2 : (17 / 10000 : ℝ) * 1000 = 17 / 10 := by norm_num
    rw [h2]
    have h3 : ⌊(17 / 10 : ℝ)⌋ = 1 := by
      rw [Int.floor_eq_iff]
      norm_num
    rw [h3]
  · unfold spec_round_cost
    have h1 : ((0 : ℝ) - 0) ^ 2 + ((0 : ℝ) - 17 / 10000) ^ 2 = (17 / 10000 : ℝ) ^ 2 := by ring
    simp only [h1]
    rw [Real.sqrt_sq (by norm_num : (0 : ℝ) ≤ 17 / 10000)]
    have h2 : (17 / 10000 : ℝ) * 1000 = 17 / 10 := by norm_num
    rw [h2, round_eq]
    have h3 : (17 / 10 : ℝ) + 1 / 2 = 11 / 5 := by norm_num
    rw [h3, Int.floor_eq_iff]
    norm_num

/-- Claim C2 (amended): for finite coordinates the cost-matrix entry is the
scaled Euclidean distance truncated toward zero, `⌊sqrt(dx² + dy²) * 1000⌋`
(truncation equals floor here because the value is nonnegative); it equals
the spec's rounded value or falls one short of it, never more. -/
theorem distancia_is_truncated_scaled_distance (x₁ y₁ x₂ y₂ : ℝ) :
    distancia_euclidiana (.fin x₁, .fin y₁) (.fin x₂, .fin y₂) =
      .ok ⌊Real.sqrt ((x₁ - x₂) ^ 2 + (y₁ - y₂) ^ 2) * 1000⌋ ∧
    ⌊Real.sqrt ((x₁ - x₂) ^ 2 + (y₁ - y₂) ^ 2) * 1000⌋ ≤ spec_round_cost (x₁, y₁) (x₂, y₂) ∧
    spec_round_cost (x₁, y₁) (x₂, y₂) ≤ ⌊Real.sqrt ((x₁ - x₂) ^ 2 + (y₁ - y₂) ^ 2) * 1000⌋ + 1 := by
  refine ⟨dist_fin_eval x₁ y₁ x₂ y₂, ?_, ?_⟩
  · unfold spec_round_cost
    rw [round_eq]
    exact Int.floor_mono (by linarith)
  · unfold spec_round_cost
    rw [round_eq]
    have h : Real.sqrt ((x₁ - x₂) ^ 2 + (y₁ - y₂) ^ 2) * 1000 + 1 / 2 ≤
        Real.sqrt ((x₁ - x₂) ^ 2 + (y₁ - y₂) ^ 2) * 1000 + 1 := by linarith
    calc ⌊Real.sqrt ((x₁ - x₂) ^ 2 + (y₁ - y₂) ^ 2) * 1000 + 1 / 2⌋
        ≤ ⌊Real.sqrt ((x₁ - x₂) ^ 2 + (y₁ - y₂) ^ 2) * 1000 + (1 : ℤ)⌋ := by
          exact Int.floor_mono (by push_cast; linarith)
      _ = ⌊Real.sqrt ((x₁ - x₂) ^ 2 + (y₁ - y₂) ^ 2) * 1000⌋ + 1 := Int.floor_add_int _ 1

/-- A solver assignment as the extraction loop consumes it:
`solution.Value(routing.NextVar(i))` and `solution.ObjectiveValue()`. -/
structure Assignment where
  nextVal : ℕ → ℕ
  objectiveValue : ℤ

/-- Abstract model of the OR-Tools routing layer
(`RoutingIndexManager(N, 1, 0)` + `RoutingModel` + `SolveWithParameters`):
the start internal index, the end test, the internal-index-to-node map, and
the solve call, which returns `none` when OR-Tools produces no solution
(in particular when the 30-second time limit expires before any solution is
found).  OR-Tools is a third-party library outside this repository, so the
guarantees its feasible solutions satisfy are stated as hypotheses where a
theorem needs them. -/
structure Backend where
  start : ℕ
  isEnd : ℕ → Bool
  indexToNode : ℕ → ℕ
  solve : List (List ℤ) → Option Assignment

/-- Embeds the route-extraction loop (otimizador.py lines 107-113):
`while not routing.IsEnd(index): append IndexToNode(index); index :=
solution.Value(NextVar(index))`, then one final append.  The Python loop is
unbounded; fuel makes the embedding total, and the theorems that use it
supply hypotheses under which the fuel is not exhausted. -/
def extractRoute (next : ℕ → ℕ) (isEnd : ℕ → Bool) (toNode : ℕ → ℕ) :
    ℕ → ℕ → List ℕ
  | 0, i => [toNode i]
  | fuel + 1, i =>
    if isEnd i then [toNode i]
    else toNode i :: extractRoute next isEnd toNode fuel (next i)

/-- Embeds `otimizar_rota` (otimizador.py lines 37-118), parametrized by the
OR-Tools backend: reject fewer than 2 points with the source's `ValueError`,
build the distance matrix, solve (a missing solution raises the source's
`RuntimeError`), extract the visiting sequence, and return it together with
`solution.ObjectiveValue() / 1000` (Python true division, hence an exact
rational here). -/
noncomputable def otimizar_rota (B : Backend) (pontos_coordenadas : List Point) :
    Except PyErr (List ℕ × ℚ) :=
  if pontos_coordenadas.length < 2 then
    .error (.valueError "São necessários pelo menos 2 pontos para otimizar")
  else
    match buildMatrix pontos_coordenadas with
    | .error e => .error e
    | .ok dist_matrix =>
      match B.solve dist_matrix with
      | none => .error (.runtimeError "Não foi possível encontrar uma solução otimizada")
      | some solution =>
        .ok (extractRoute solution.nextVal B.isEnd B.indexToNode
               (dist_matrix.length + 1) B.start,
             (solution.objectiveValue : ℚ) / 1000)

/-- Cost of a walk through a matrix: the sum of `cost[tour[k]][tour[k+1]]`
over consecutive pairs. -/
def walkCost (M : List (List ℤ)) : List ℕ → ℤ
  | a :: b :: rest => (M.getD a []).getD b 0 + walkCost M (b :: rest)
  | _ => 0

/-- Claim C4: fewer than 2 points is rejected with the source's explicit
`ValueError` (the InvalidInput of the spec), for any solver backend, and no
tour is produced. -/
theorem otimizar_rota_rejects_small_input (B : Backend) (pontos : List Point)
    (h : pontos.length < 2) :
    otimizar_rota B pontos =
      .error (.valueError "São necessários pelo menos 2 pontos para otimizar") := by
  simp [otimizar_rota, if_pos h]

theorem otimizar_rota_rejects_small_input_witness :
    ([] : List Point).length < 2 ∧
    otimizar_rota ⟨0, fun i => i == 1, fun _ => 0, fun _ => none⟩ ([] : List Point) =
      .error (.valueError "São necessários pelo menos 2 pontos para otimizar") :=
  ⟨by simp, otimizar_rota_rejects_small_input _ _ (by simp)⟩

/-- A concrete backend used for witnesses and counterexamples: the manager
layout OR-Tools produces for 2 nodes and depot 0 (internal indices 0, 1 for
the nodes and 2 for the route end, which maps back to the depot), with a
solver that returns the route 0 → 1 → end and objective value 6. -/
def demoBackend : Backend where
  start := 0
  isEnd := fun i => i == 2
  indexToNode := fun i => if i == 2 then 0 else i
  solve := fun _ => some ⟨fun i => i + 1, 6⟩

/-- Claim C5 counterexample: invoked with exactly one point, `otimizar_rota`
raises the `ValueError` instead of returning the trivial result
`([0, 0], 0)` the claim describes. -/
theorem single_point_not_trivial_result :
    otimizar_rota demoBackend [((.fin 0, .fin 0) : Point)] =
      .error (.valueError "São necessários pelo menos 2 pontos para otimizar") ∧
    otimizar_rota demoBackend [((.fin 0, .fin 0) : Point)] ≠ .ok ([0, 0], 0) := by
  have h : otimizar_rota demoBackend [((.fin 0, .fin 0) : Point)] =
      .error (.valueError "São necessários pelo menos 2 pontos para otimizar") := by
    simp [otimizar_rota]
  exact ⟨h, by rw [h]; simp⟩

/-- Claim C5 (amended): a single point is rejected exactly like the empty
input — the `len < 2` guard raises `ValueError` before any solving, for
every backend; there is no trivial `[depot, depot]` result in the code. -/
theorem otimizar_rota_single_point_rejected (B : Backend) (p : Point) :
    otimizar_rota B [p] =
      .error (.valueError "São necessários pelo menos 2 pontos para otimizar") := by
  simp [otimizar_rota]

/-- Distance from a finite point to a point with +inf first coordinate:
`hypot` returns +inf, and `int(inf)` raises `OverflowError`. -/
lemma dist_to_pinf_eval (a b y : ℝ) :
    distancia_euclidiana (.fin a, .fin b) (.pinf, .fin y) =
      .error (.overflowError "cannot convert float infinity to integer") := by
  simp [distancia_euclidiana, fsub, fhypot, fmulScale, pyInt]

/-- Distance from a finite point to a point with NaN first coordinate:
`hypot` returns NaN, and `int(nan)` raises `ValueError`. -/
lemma dist_to_nan_eval (a b y : ℝ) :
    distancia_euclidiana (.fin a, .fin b) (.nan, .fin y) =
      .error (.valueError "cannot convert float NaN to integer") := by
  simp [distancia_euclidiana, fsub, fhypot, fmulScale, pyInt]

/-- Claim C6 counterexample: with a +infinity coordinate in the second
point, `otimizar_rota` propagates the arithmetic and crashes with the
uncaught `OverflowError` that `int()` raises — which is not the explicit
input-validation `ValueError` (the code's InvalidInput). -/
theorem nonfinite_coordinate_crashes :
    otimizar_rota demoBackend
        [((.fin 0, .fin 0) : Point), ((.pinf, .fin 0) : Point)] =
      .error (.overflowError "cannot convert float infinity to integer") ∧
    (PyErr.overflowError "cannot convert float infinity to integer" ≠
      PyErr.valueError "São necessários pelo menos 2 pontos para otimizar") := by
  constructor
  · simp only [otimizar_rota]
    rw [if_neg (by simp)]
    simp [buildMatrix, mapE, dist_self_eval, dist_to_pinf_eval]
  · simp

/-- Claim C6 (amended): there is no fail-fast validation of non-finite
coordinates.  For every backend and finite first point, a +infinity
x-coordinate in the second point makes `otimizar_rota` crash with the
uncaught `OverflowError` from `int()`, and a NaN x-coordinate makes it crash
with the `ValueError` that `int()` itself raises (message "cannot convert
float NaN to integer"), which is a different error from the explicit
validation `ValueError` of the length check. -/
theorem nonfinite_coordinate_uncaught_crash (B : Backend) (a b y : ℝ) :
    otimizar_rota B [((.fin a, .fin b) : Point), ((.pinf, .fin y) : Point)] =
      .error (.overflowError "cannot convert float infinity to integer") ∧
    otimizar_rota B [((.fin a, .fin b) : Point), ((.nan, .fin y) : Point)] =
      .error (.valueError "cannot convert float NaN to integer") ∧
    (PyErr.valueError "cannot convert float NaN to integer" ≠
      PyErr.valueError "São necessários pelo menos 2 pontos para otimizar") := by
  refine ⟨?_, ?_, by simp⟩
  · simp only [otimizar_rota]
    rw [if_neg (by simp)]
    simp [buildMatrix, mapE, dist_self_eval, dist_to_pinf_eval]
  · simp only [otimizar_rota]
    rw [if_neg (by simp)]
    simp [buildMatrix, mapE, dist_self_eval, dist_to_nan_eval]

/-- At an end index the extraction loop stops immediately, whatever fuel is
left. -/
lemma extractRoute_end (next : ℕ → ℕ) (isEnd : ℕ → Bool) (toNode : ℕ → ℕ)
    (e fuel : ℕ) (he : isEnd e = true) :
    extractRoute next isEnd toNode fuel e = [toNode e] := by
  cases fuel <;> simp [extractRoute, he]

/-- The extraction loop, run from the head of a `next`-chained list of
non-end indices whose last step lands on the end index `e`, returns exactly
the node images of that list followed by the node image of `e`. -/
lemma extractRoute_path (next : ℕ → ℕ) (isEnd : ℕ → Bool) (toNode : ℕ → ℕ)
    (e : ℕ) (he : isEnd e = true) :
    ∀ (idxs : List ℕ) (fuel s : ℕ),
      idxs.head? = some s →
      idxs.length ≤ fuel →
      (∀ i ∈ idxs, isEnd i = false) →
      List.Chain' (fun a b => next a = b) idxs →
      (∀ l, idxs.getLast? = some l → next l = e) →
      extractRoute next isEnd toNode fuel s = idxs.map toNode ++ [toNode e] := by
  intro idxs
  induction idxs with
  | nil => intro fuel s hhead _ _ _ _; simp at hhead
  | cons a t ih =>
    intro fuel s hhead hlen hnoend hchain hlast
    have hs : a = s := by simpa using hhead
    subst hs
    obtain ⟨f, rfl⟩ : ∃ f, fuel = f + 1 := by
      cases fuel with
      | zero => simp at hlen
      | succ f => exact ⟨f, rfl⟩
    have ha : isEnd a = false := hnoend a (List.mem_cons_self a t)
    cases t with
    | nil =>
      have hnext : next a = e := hlast a rfl
      simp [extractRoute, ha, hnext, extractRoute_end next isEnd toNode e f he]
    | cons b t2 =>
      obtain ⟨hab, hchain2⟩ := List.chain'_cons.mp hchain
      have hrest := ih f b rfl (by simp at hlen ⊢; omega)
        (fun i hi => hnoend i (List.mem_cons_of_mem a hi)) hchain2
        (fun l hl => hlast l (by rw [List.getLast?_cons_cons]; exact hl))
      simp only [extractRoute, ha, Bool.false_eq_true, if_false, hab, hrest]
      simp

/-- Claim C1: whenever `otimizar_rota` succeeds and the OR-Tools solution
satisfies the routing-library contract (a single-vehicle route: a
`NextVar`-chain of distinct internal indices from `Start(0)` to the end
index whose node images are a permutation of `0..N-1`, with start and end
mapping to depot 0), the returned sequence has length N+1, begins and ends
at depot 0, contains 0 exactly twice, and every other node index exactly
once.  The chain-and-permutation hypotheses are the feasibility guarantee
of the external OR-Tools solver, which is not part of this repository. -/
theorem otimizar_rota_valid_tour
    (B : Backend) (pontos : List Point) (M : List (List ℤ)) (sol : Assignment)
    (idxs : List ℕ) (e : ℕ)
    (hN : 2 ≤ pontos.length)
    (hM : buildMatrix pontos = .ok M)
    (hsolve : B.solve M = some sol)
    (hlen : idxs.length = pontos.length)
    (hhead : idxs.head? = some B.start)
    (hchain : List.Chain' (fun a b => sol.nextVal a = b) idxs)
    (hnoend : ∀ i ∈ idxs, B.isEnd i = false)
    (hlast : ∀ l, idxs.getLast? = some l → sol.nextVal l = e)
    (hend : B.isEnd e = true)
    (hperm : (idxs.map B.indexToNode).Perm (List.range pontos.length))
    (hstart0 : B.indexToNode B.start = 0)
    (hend0 : B.indexToNode e = 0) :
    ∃ seq cost, otimizar_rota B pontos = .ok (seq, cost) ∧
      seq.length = pontos.length + 1 ∧
      seq.head? = some 0 ∧
      seq.getLast? = some 0 ∧
      seq.count 0 = 2 ∧
      (∀ k, 1 ≤ k → k < pontos.length → seq.count k = 1) := by
  have hMlen : M.length = pontos.length := mapE_ok_length _ pontos M hM
  have hfuel : idxs.length ≤ M.length + 1 := by omega
  have hseq := extractRoute_path sol.nextVal B.isEnd B.indexToNode e hend idxs
    (M.length + 1) B.start hhead hfuel hnoend hchain hlast
  rw [hend0] at hseq
  refine ⟨idxs.map B.indexToNode ++ [0], (sol.objectiveValue : ℚ) / 1000, ?_, ?_, ?_, ?_, ?_, ?_⟩
  · simp only [otimizar_rota]
    rw [if_neg (by omega), hM]
    simp only [hsolve, hseq]
  · simp [hlen]
  · cases idxs with
    | nil => simp at hhead
    | cons a t =>
      have : a = B.start := by simpa using hhead
      subst this
      simp [hstart0]
  · rw [List.getLast?_append_cons]
    rfl
  · rw [List.count_append, hperm.count_eq]
    have h0 : (0 : ℕ) ∈ List.range pontos.length := List.mem_range.mpr (by omega)
    rw [List.count_eq_one_of_mem (List.nodup_range _) h0]
    simp
  · intro k hk1 hkN
    rw [List.count_append, hperm.count_eq]
    have hkmem : k ∈ List.range pontos.length := List.mem_range.mpr hkN
    rw [List.count_eq_one_of_mem (List.nodup_range _) hkmem]
    have : (0 : ℕ) ≠ k := by omega
    simp [List.count_singleton, this]

lemma buildMatrix_two_zero :
    buildMatrix [((.fin 0, .fin 0) : Point), ((.fin 0, .fin 0) : Point)] =
      .ok [[0, 0], [0, 0]] := by
  simp [buildMatrix, mapE, dist_self_eval]

theorem otimizar_rota_valid_tour_witness :
    ∃ seq cost,
      otimizar_rota demoBackend
          [((.fin 0, .fin 0) : Point), ((.fin 0, .fin 0) : Point)] = .ok (seq, cost) ∧
      seq.length = [((.fin 0, .fin 0) : Point), ((.fin 0, .fin 0) : Point)].length + 1 ∧
      seq.head? = some 0 ∧
      seq.getLast? = some 0 ∧
      seq.count 0 = 2 ∧
      (∀ k, 1 ≤ k → k < [((.fin 0, .fin 0) : Point), ((.fin 0, .fin 0) : Point)].length →
        seq.count k = 1) :=
  otimizar_rota_valid_tour demoBackend _ [[0, 0], [0, 0]] ⟨fun i => i + 1, 6⟩ [0, 1] 2
    (by simp) buildMatrix_two_zero rfl (by simp) rfl (by simp [List.chain'_cons])
    (by decide) (by intro l hl; simp at hl; subst hl; rfl) rfl (by decide) rfl rfl

lemma dist_eval_03 :
    distancia_euclidiana (.fin 0, .fin 0) (.fin 0, .fin (3 / 1000)) = .ok 3 := by
  rw [dist_fin_eval]
  have h1 : ((0 : ℝ) - 0) ^ 2 + ((0 : ℝ) - 3 / 1000) ^ 2 = (3 / 1000 : ℝ) ^ 2 := by ring
  rw [h1, Real.sqrt_sq (by norm_num : (0 : ℝ) ≤ 3 / 1000)]
  have h2 : (3 / 1000 : ℝ) * 1000 = 3 := by norm_num
  rw [h2]
  have h3 : ⌊(3 : ℝ)⌋ = 3 := by rw [Int.floor_eq_iff]; norm_num
  rw [h3]

lemma dist_eval_30 :
    distancia_euclidiana (.fin 0, .fin (3 / 1000)) (.fin 0, .fin 0) = .ok 3 := by
  rw [dist_fin_eval]
  have h1 : ((0 : ℝ) - 0) ^ 2 + ((3 / 1000 : ℝ) - 0) ^ 2 = (3 / 1000 : ℝ) ^ 2 := by ring
  rw [h1, Real.sqrt_sq (by norm_num : (0 : ℝ) ≤ 3 / 1000)]
  have h2 : (3 / 1000 : ℝ) * 1000 = 3 := by norm_num
  rw [h2]
  have h3 : ⌊(3 : ℝ)⌋ = 3 := by rw [Int.floor_eq_iff]; norm_num
  rw [h3]

lemma buildMatrix_pts3 :
    buildMatrix [((.fin 0, .fin 0) : Point), ((.fin 0, .fin (3 / 1000)) : Point)] =
      .ok [[0, 3], [3, 0]] := by
  simp [buildMatrix, mapE, dist_self_eval, dist_eval_03, dist_eval_30]

/-- Claim C3 counterexample: on two points 3 scaled-units apart the matrix
is [[0,3],[3,0]], the closed walk [0,1,0] has matrix-cost sum 6, but the
value `otimizar_rota` returns is `ObjectiveValue() / 1000 = 6/1000` — a
rescaled quantity, not the sum 6 itself. -/
theorem total_cost_rescaled_counterexample :
    otimizar_rota demoBackend
        [((.fin 0, .fin 0) : Point), ((.fin 0, .fin (3 / 1000)) : Point)] =
      .ok ([0, 1, 0], 6 / 1000) ∧
    walkCost [[0, 3], [3, 0]] [0, 1, 0] = 6 ∧
    (6 / 1000 : ℚ) ≠ 6 := by
  refine ⟨?_, by decide, by norm_num⟩
  simp only [otimizar_rota]
  rw [if_neg (by simp), buildMatrix_pts3]
  rfl

/-- Claim C3 (amended): the returned total is the solver's objective divided
by 1000 (the km conversion on line 116); under the OR-Tools guarantee that
the objective equals the sum of the registered arc costs along the returned
route, the returned total is `walkCost M seq / 1000`, not `walkCost M seq`. -/
theorem otimizar_rota_cost_is_walk_sum_div_1000
    (B : Backend) (pontos : List Point) (M : List (List ℤ)) (sol : Assignment)
    (hN : 2 ≤ pontos.length)
    (hM : buildMatrix pontos = .ok M)
    (hsolve : B.solve M = some sol)
    (hobj : sol.objectiveValue =
      walkCost M (extractRoute sol.nextVal B.isEnd B.indexToNode (M.length + 1) B.start)) :
    ∃ seq, otimizar_rota B pontos = .ok (seq, ((walkCost M seq : ℤ) : ℚ) / 1000) := by
  refine ⟨extractRoute sol.nextVal B.isEnd B.indexToNode (M.length + 1) B.start, ?_⟩
  simp only [otimizar_rota]
  rw [if_neg (by omega), hM]
  simp only [hsolve, hobj]

theorem otimizar_rota_cost_is_walk_sum_div_1000_witness :
    ∃ seq, otimizar_rota demoBackend
        [((.fin 0, .fin 0) : Point), ((.fin 0, .fin (3 / 1000)) : Point)] =
      .ok (seq, ((walkCost [[0, 3], [3, 0]] seq : ℤ) : ℚ) / 1000) :=
  otimizar_rota_cost_is_walk_sum_div_1000 demoBackend _ [[0, 3], [3, 0]]
    ⟨fun i => i + 1, 6⟩ (by simp) buildMatrix_pts3 rfl (by decide)

/-- The real value of a finite idealized double (0 for non-finite ones; used
only where finiteness is hypothesized). -/
noncomputable def toR : PyFloat → ℝ
  | .fin x => x
  | _ => 0

/-- The pure entry value of the distance matrix on finite points. -/
noncomputable def entryVal (a b : Point) : ℤ :=
  ⌊Real.sqrt ((toR a.1 - toR b.1) ^ 2 + (toR a.2 - toR b.2) ^ 2) * 1000⌋

lemma getD_map_lt {α β : Type} (f : α → β) (l : List α) (d : β) (d₀ : α) :
    ∀ i, i < l.length → (l.map f).getD i d = f (l.getD i d₀) := by
  induction l with
  | nil => intro i h; simp at h
  | cons a t ih =>
    intro i h
    cases i with
    | zero => simp
    | succ n =>
      simp only [List.map_cons, List.getD_cons_succ]
      exact ih n (by simpa using Nat.lt_of_succ_lt_succ h)

lemma buildMatrix_of_finite (pts : List Point)
    (hfin : ∀ p ∈ pts, ∃ x y, p = (PyFloat.fin x, PyFloat.fin y)) :
    buildMatrix pts = .ok (pts.map fun pi => pts.map fun pj => entryVal pi pj) := by
  apply mapE_ok_of_forall
  intro a ha
  apply mapE_ok_of_forall
  intro b hb
  obtain ⟨xa, ya, rfl⟩ := hfin a ha
  obtain ⟨xb, yb, rfl⟩ := hfin b hb
  rw [dist_fin_eval]
  simp [entryVal, toR]

/-- Claim C7: on a list of finite points the built cost matrix has zero
diagonal and is symmetric (entries read with out-of-range default 0, under
in-range indices). -/
theorem buildMatrix_zero_diag_symm (pts : List Point)
    (hfin : ∀ p ∈ pts, ∃ x y, p = (PyFloat.fin x, PyFloat.fin y)) :
    ∃ M, buildMatrix pts = .ok M ∧
      M.length = pts.length ∧
      (∀ i, i < pts.length → (M.getD i []).getD i 0 = 0) ∧
      (∀ i j, i < pts.length → j < pts.length →
        (M.getD i []).getD j 0 = (M.getD j []).getD i 0) := by
  refine ⟨pts.map fun pi => pts.map fun pj => entryVal pi pj,
    buildMatrix_of_finite pts hfin, by simp, ?_, ?_⟩
  · intro i hi
    rw [getD_map_lt _ pts _ (PyFloat.nan, PyFloat.nan) i hi,
      getD_map_lt _ pts _ (PyFloat.nan, PyFloat.nan) i hi]
    simp [entryVal]
  · intro i j hi hj
    rw [getD_map_lt _ pts _ (PyFloat.nan, PyFloat.nan) i hi,
      getD_map_lt _ pts _ (PyFloat.nan, PyFloat.nan) j hj,
      getD_map_lt _ pts _ (PyFloat.nan, PyFloat.nan) j hj,
      getD_map_lt _ pts _ (PyFloat.nan, PyFloat.nan) i hi]
    unfold entryVal
    have h : (toR (pts.getD i (PyFloat.nan, PyFloat.nan)).1 -
          toR (pts.getD j (PyFloat.nan, PyFloat.nan)).1) ^ 2 +
        (toR (pts.getD i (PyFloat.nan, PyFloat.nan)).2 -
          toR (pts.getD j (PyFloat.nan, PyFloat.nan)).2) ^ 2 =
        (toR (pts.getD j (PyFloat.nan, PyFloat.nan)).1 -
          toR (pts.getD i (PyFloat.nan, PyFloat.nan)).1) ^ 2 +
        (toR (pts.getD j (PyFloat.nan, PyFloat.nan)).2 -
          toR (pts.getD i (PyFloat.nan, PyFloat.nan)).2) ^ 2 := by ring
    rw [h]

theorem buildMatrix_zero_diag_symm_witness :
    ∃ M, buildMatrix [((.fin 0, .fin 0) : Point), ((.fin 3, .fin 4) : Point)] = .ok M ∧
      M.length = [((.fin 0, .fin 0) : Point), ((.fin 3, .fin 4) : Point)].length ∧
      (∀ i, i < [((.fin 0, .fin 0) : Point), ((.fin 3, .fin 4) : Point)].length →
        (M.getD i []).getD i 0 = 0) ∧
      (∀ i j, i < [((.fin 0, .fin 0) : Point), ((.fin 3, .fin 4) : Point)].length →
        j < [((.fin 0, .fin 0) : Point), ((.fin 3, .fin 4) : Point)].length →
        (M.getD i []).getD j 0 = (M.getD j []).getD i 0) :=
  buildMatrix_zero_diag_symm _ (by
    intro p hp
    simp only [List.mem_cons, List.not_mem_nil, or_false] at hp
    rcases hp with rfl | rfl
    · exact ⟨0, 0, rfl⟩
    · exact ⟨3, 4, rfl⟩)

/-- A backend whose solve call produces no solution — the situation in which
OR-Tools' `SolveWithParameters` returns nothing, in particular when the
configured 30-second time limit expires before any solution is found. -/
def noSolutionBackend : Backend where
  start := 0
  isEnd := fun i => i == 2
  indexToNode := fun i => if i == 2 then 0 else i
  solve := fun _ => none

/-- Claim C8 counterexample: when the solver comes back empty-handed (its
time budget exhausted before a solution exists), `otimizar_rota` raises
`RuntimeError` — budget exhaustion surfaces as an error, and no result
carrying a converged flag exists anywhere in the code. -/
theorem budget_exhaustion_raises_counterexample :
    otimizar_rota noSolutionBackend
        [((.fin 0, .fin 0) : Point), ((.fin 0, .fin (3 / 1000)) : Point)] =
      .error (.runtimeError "Não foi possível encontrar uma solução otimizada") := by
  simp only [otimizar_rota]
  rw [if_neg (by simp), buildMatrix_pts3]
  rfl

/-- Claim C8 (amended): the success value of `otimizar_rota` is a bare
(sequence, total) pair with no convergence flag; whenever the solver
returns no solution — which is how a time limit expiring before any
solution is found manifests — the function raises the `RuntimeError` of
line 104 instead of returning any result. -/
theorem otimizar_rota_runtime_error_when_no_solution
    (B : Backend) (pontos : List Point) (M : List (List ℤ))
    (hN : 2 ≤ pontos.length)
    (hM : buildMatrix pontos = .ok M)
    (hnone : B.solve M = none) :
    otimizar_rota B pontos =
      .error (.runtimeError "Não foi possível encontrar uma solução otimizada") := by
  simp only [otimizar_rota]
  rw [if_neg (by omega), hM]
  simp only [hnone]

theorem otimizar_rota_runtime_error_when_no_solution_witness :
    otimizar_rota noSolutionBackend
        [((.fin 0, .fin 0) : Point), ((.fin 0, .fin (3 / 1000)) : Point)] =
      .error (.runtimeError "Não foi possível encontrar uma solução otimizada") :=
  otimizar_rota_runtime_error_when_no_solution noSolutionBackend _ [[0, 3], [3, 0]]
    (by simp) buildMatrix_pts3 rfl

/-- A JSON-like value, modelling the GeoJSON payloads the OpenRouteService
client returns and `calcular_estatisticas_rota` consumes. -/
inductive J where
  | num (q : ℚ)
  | str (s : String)
  | arr (elems : List J)
  | obj (entries : List (String × J))
  | null

/-- Outcome of the `cliente.directions(...)` call inside `obter_rota_real`:
a GeoJSON response, an `ors.exceptions.ApiError`, or any other exception. -/
inductive OrsOutcome where
  | success (geojson : J)
  | apiError (msg : String)
  | otherError (msg : String)

/-- Embeds `obter_rota_real` (otimizador.py lines 139-154), parametrized by
what the OpenRouteService client call does: the GeoJSON is returned on
success, while BOTH exception handlers print the error and return `None`. -/
def obter_rota_real (outcome : OrsOutcome) : Option J :=
  match outcome with
  | .success caminhos => some caminhos
  | .apiError _ => none
  | .otherError _ => none

/-- Claim C9 counterexample: a failing routing-service call — whether an
`ApiError` or any other exception — is caught inside `obter_rota_real` and
replaced by a bare `None`, indistinguishable between the two failure kinds:
the error is swallowed, not surfaced to the caller. -/
theorem obter_rota_real_swallows_counterexample :
    obter_rota_real (.apiError "Rate limit exceeded") = none ∧
    obter_rota_real (.otherError "connection timeout") = none := by
  exact ⟨rfl, rfl⟩

/-- Claim C9 (amended): every failure of the directions request is caught
internally by the two `except` handlers (which only print) and replaced by
`None`; only a successful call surfaces its value to the caller. -/
theorem obter_rota_real_error_policy (m : String) (c : J) :
    obter_rota_real (.apiError m) = none ∧
    obter_rota_real (.otherError m) = none ∧
    obter_rota_real (.success c) = some c := by
  exact ⟨rfl, rfl, rfl⟩

/-- First-match key lookup in a Python dict modelled as an entry list. -/
def lookupDict : List (String × J) → String → Option J
  | [], _ => none
  | (k, v) :: rest, key => if k = key then some v else lookupDict rest key

/-- Python `key in dict`. -/
def hasKey (d : List (String × J)) (k : String) : Bool :=
  (lookupDict d k).isSome

/-- Python `dict.get(key, default)`. -/
def dictGet (d : List (String × J)) (k : String) (dflt : J) : J :=
  match lookupDict d k with
  | some v => v
  | none => dflt

/-- The statistics dictionary produced by `calcular_estatisticas_rota`. -/
structure Stats where
  num_pontos : ℕ
  num_paradas : ℕ
  distancia_km : ℚ
  tempo_horas : ℚ
  tempo_minutos : ℚ

/-- Python list subscript `l[i]` for a nonnegative index: `IndexError` when
out of range. -/
def pyGetIdx {α : Type} (l : List α) (i : ℕ) : Except PyErr α :=
  if h : i < l.length then .ok (l.get ⟨i, h⟩)
  else .error (.indexError "list index out of range")

/-- Embeds the Euclidean fallback loop of `calcular_estatisticas_rota`
(otimizador.py lines 298-305): sums `distancia_euclidiana` over consecutive
pairs of the sequence, with Python's subscripting and arithmetic errors
propagating in iteration order. -/
noncomputable def somaDist (pontos : List Point) : List ℕ → Except PyErr ℤ
  | a :: b :: rest =>
    match pyGetIdx pontos a with
    | .error e => .error e
    | .ok pa =>
      match pyGetIdx pontos b with
      | .error e => .error e
      | .ok pb =>
        match distancia_euclidiana pa pb with
        | .error e => .error e
        | .ok d =>
          match somaDist pontos (b :: rest) with
          | .error e => .error e
          | .ok r => .ok (d + r)
  | _ => .ok 0

/-- The `else` branch of `calcular_estatisticas_rota` (lines 296-309):
Euclidean total, `distancia_km = total / 1000`, `tempo_horas =
distancia_km / 60` and `tempo_minutos = tempo_horas * 60`. -/
noncomputable def fallbackStats (pontos : List Point) (seq : List ℕ) : Except PyErr Stats :=
  match somaDist pontos seq with
  | .error e => .error e
  | .ok total =>
    .ok { num_pontos := pontos.length, num_paradas := seq.length,
          distancia_km := (total : ℚ) / 1000,
          tempo_horas := (total : ℚ) / 1000 / 60,
          tempo_minutos := (total : ℚ) / 1000 / 60 * 60 }

/-- Embeds `calcular_estatisticas_rota` (otimizador.py lines 272-311).  The
real-route branch is guarded only by `caminhos and 'features' in caminhos`
(truthiness plus key membership) and then subscripts
`caminhos['features'][0]`, reading `properties`/`summary` with `.get` and
dividing the `distance`/`duration` numbers; every other shape follows the
corresponding Python runtime error. -/
noncomputable def calcular_estatisticas_rota (pontos : List Point) (seq : List ℕ)
    (caminhos : Option (List (String × J))) : Except PyErr Stats :=
  match caminhos with
  | none => fallbackStats pontos seq
  | some d =>
    if !d.isEmpty && hasKey d "features" then
      match lookupDict d "features" with
      | none => .error (.keyError "features")
      | some (J.arr []) => .error (.indexError "list index out of range")
      | some (J.arr (feat0 :: _)) =>
        match feat0 with
        | J.obj fo =>
          match dictGet fo "properties" (J.obj []) with
          | J.obj props =>
            match dictGet props "summary" (J.obj []) with
            | J.obj s =>
              match dictGet s "distance" (J.num 0), dictGet s "duration" (J.num 0) with
              | J.num dist, J.num dur =>
                .ok { num_pontos := pontos.length, num_paradas := seq.length,
                      distancia_km := dist / 1000,
                      tempo_horas := dur / 3600,
                      tempo_minutos := dur / 60 }
              | _, _ => .error (.typeError "unsupported operand type for division")
            | _ => .error (.attributeError "object has no attribute get")
          | _ => .error (.attributeError "object has no attribute get")
        | _ => .error (.attributeError "object has no attribute get")
      | some _ => .error (.typeError "object is not subscriptable")
    else fallbackStats pontos seq

/-- Claim C10: the real-route branch is guarded only by truthiness plus key
membership, so a nonempty dict whose "features" key holds an empty list
reaches the `[0]` subscript and raises `IndexError`, while passing `None`
falls back to the Euclidean statistics. -/
theorem calcular_empty_features_index_error
    (pontos : List Point) (seq : List ℕ) (d : List (String × J))
    (hne : d ≠ [])
    (hfeat : lookupDict d "features" = some (J.arr [])) :
    calcular_estatisticas_rota pontos seq (some d) =
      .error (.indexError "list index out of range") ∧
    calcular_estatisticas_rota pontos seq none = fallbackStats pontos seq := by
  constructor
  · have hempty : d.isEmpty = false := by
      cases d with
      | nil => exact absurd rfl hne
      | cons a t => rfl
    have hkey : hasKey d "features" = true := by simp [hasKey, hfeat]
    simp only [calcular_estatisticas_rota, hempty, hkey, hfeat, Bool.not_false,
      Bool.and_self]
    simp
  · rfl

theorem calcular_empty_features_index_error_witness :
    calcular_estatisticas_rota [] [] (some [("features", J.arr [])]) =
      .error (.indexError "list index out of range") ∧
    calcular_estatisticas_rota [] [] none = fallbackStats [] [] :=
  calcular_empty_features_index_error [] [] [("features", J.arr [])]
    (by simp) (by simp [lookupDict])
